import Mathlib

/-!
Shallow embedding of the tcpgraph core: the frame header parser and MAC-based
direction classifier (`src/capture.rs`), the sliding-window bandwidth
aggregator (`src/bandwidth.rs`), and the argument validation (`src/main.rs`).

Conventions of the embedding:
* `SystemTime` instants and `Duration`s are rationals (seconds); the impure
  `SystemTime::now()` read inside `calculate_bandwidth`, `add_packet` and
  `cleanup_old_packets` becomes an explicit `now : ℚ` argument.
* `f64` rates are modelled as exact rationals (`ℚ`); the divisions performed
  by the code are rational divisions.
* Byte buffers are `List ℕ` (each entry a byte value); `u32`/`u64`
  quantities are `ℕ` (no arithmetic here can overflow the machine width:
  IPv4 `total_length` is a 16-bit field and header lengths are 4-bit
  nibbles times 4).
* `VecDeque` front is the list head: `push_back` appends, `pop_front`
  drops the head.
-/

/-- `TrafficDirection` from `src/capture.rs`. -/
inductive TrafficDirection : Type where
  | Inbound : TrafficDirection
  | Outbound : TrafficDirection
  | Unknown : TrafficDirection
deriving DecidableEq, Repr

/-- `PacketInfo` from `src/capture.rs`: timestamp, size in bytes, direction. -/
structure PacketInfo : Type where
  timestamp : ℚ
  size : ℕ
  direction : TrafficDirection
deriving DecidableEq, Repr

/-- `BandwidthData` from `src/bandwidth.rs`: one history sample. -/
structure BandwidthData : Type where
  timestamp : ℚ
  inbound_bps : ℚ
  outbound_bps : ℚ
deriving DecidableEq, Repr

/-- `DirectionalBandwidth` from `src/bandwidth.rs`: the value returned by
`calculate_bandwidth`. -/
structure DirectionalBandwidth : Type where
  inbound : ℚ
  outbound : ℚ
deriving DecidableEq, Repr

/-- `BandwidthCalculator` from `src/bandwidth.rs`. -/
structure BandwidthCalculator : Type where
  packet_buffer : List PacketInfo
  bandwidth_history : List BandwidthData
  max_history : ℕ
  window_duration : ℚ
deriving DecidableEq, Repr

/-- `BandwidthCalculator::new`: empty buffers, stores the given window
duration and history bound (no validation is performed). -/
def BandwidthCalculator.new (window_duration : ℚ) (max_history : ℕ) :
    BandwidthCalculator :=
  { packet_buffer := []
    bandwidth_history := []
    max_history := max_history
    window_duration := window_duration }

/-- The step of the fold in `calculate_bandwidth` (lines 48-60 of
`src/bandwidth.rs`): Inbound adds its size to the inbound accumulator,
Outbound to the outbound one, Unknown adds `size / 2` (integer division)
to both. -/
def sumStep (acc : ℕ × ℕ) (packet : PacketInfo) : ℕ × ℕ :=
  match packet.direction with
  | .Inbound => (acc.1 + packet.size, acc.2)
  | .Outbound => (acc.1, acc.2 + packet.size)
  | .Unknown => (acc.1 + packet.size / 2, acc.2 + packet.size / 2)

/-- The `(inbound_bytes, outbound_bytes)` pair computed by
`calculate_bandwidth`: fold `sumStep` over the buffered packets whose
timestamp is at least `now - window_duration`. -/
def windowBytes (now : ℚ) (c : BandwidthCalculator) : ℕ × ℕ :=
  (c.packet_buffer.filter
      (fun packet => decide (now - c.window_duration ≤ packet.timestamp))).foldl
    sumStep (0, 0)

/-- The `BandwidthData` sample built by `calculate_bandwidth` at instant
`now`: each byte sum divided by the window duration in seconds. -/
def mkSample (now : ℚ) (c : BandwidthCalculator) : BandwidthData :=
  { timestamp := now
    inbound_bps := ((windowBytes now c).1 : ℚ) / c.window_duration
    outbound_bps := ((windowBytes now c).2 : ℚ) / c.window_duration }

/-- `BandwidthCalculator::calculate_bandwidth` (lines 41-81 of
`src/bandwidth.rs`): sum the in-window bytes per direction, convert to
rates, push the sample onto the history, pop the oldest history entry if
the bound is now exceeded, and return the rates.  Returns the value
together with the updated calculator. -/
def calculate_bandwidth (now : ℚ) (c : BandwidthCalculator) :
    DirectionalBandwidth × BandwidthCalculator :=
  let s := mkSample now c
  let pushed := c.bandwidth_history ++ [s]
  let hist := if c.max_history < pushed.length then pushed.tail else pushed
  ({ inbound := s.inbound_bps, outbound := s.outbound_bps },
   { c with bandwidth_history := hist })

/-- `BandwidthCalculator::cleanup_old_packets` (lines 103-113 of
`src/bandwidth.rs`): pop from the buffer head while the front packet is
older than `now - window_duration * 2`. -/
def cleanup_old_packets (now : ℚ) (c : BandwidthCalculator) :
    BandwidthCalculator :=
  { c with
    packet_buffer :=
      c.packet_buffer.dropWhile
        (fun packet => decide (packet.timestamp < now - c.window_duration * 2)) }

/-- `BandwidthCalculator::add_packet` (lines 36-39 of `src/bandwidth.rs`):
push the packet at the buffer tail, then prune stale packets from the
head. -/
def add_packet (now : ℚ) (packet : PacketInfo) (c : BandwidthCalculator) :
    BandwidthCalculator :=
  cleanup_old_packets now { c with packet_buffer := c.packet_buffer ++ [packet] }

/-- `BandwidthCalculator::get_chart_data` (lines 87-101 of
`src/bandwidth.rs`): enumerate the history and emit, per direction, the
points `(index, rate / 1024.0)`. -/
def get_chart_data (c : BandwidthCalculator) :
    List (ℚ × ℚ) × List (ℚ × ℚ) :=
  (c.bandwidth_history.enum.map
      (fun p => ((p.1 : ℚ), p.2.inbound_bps / 1024)),
   c.bandwidth_history.enum.map
      (fun p => ((p.1 : ℚ), p.2.outbound_bps / 1024)))

/-- Iterate `calculate_bandwidth` over a list of tick instants, keeping the
evolving calculator state (the consumer loop calls `sample()` once per
tick). -/
def runSamples (c : BandwidthCalculator) : List ℚ → BandwidthCalculator
  | [] => c
  | t :: ts => runSamples (calculate_bandwidth t c).2 ts

/-- `pnet::util::MacAddr`: six octets. -/
structure MacAddr : Type where
  o0 : ℕ
  o1 : ℕ
  o2 : ℕ
  o3 : ℕ
  o4 : ℕ
  o5 : ℕ
deriving DecidableEq, Repr

/-- `MacAddr::broadcast()`: `ff:ff:ff:ff:ff:ff`. -/
def MacAddr.broadcast : MacAddr := ⟨255, 255, 255, 255, 255, 255⟩

/-- `MacAddr::is_multicast()`: the least significant bit of the first octet
is set. -/
def MacAddr.is_multicast (m : MacAddr) : Bool := m.o0 % 2 = 1

/-- Byte `i` of a buffer (only read under a length guard that makes the
default unreachable). -/
def byteAt (data : List ℕ) (i : ℕ) : ℕ := data.getD i 0

/-- Parsed Ethernet header, as exposed by the pnet `EthernetPacket` type:
destination MAC (octets 0-5), source MAC (octets 6-11), big-endian
ethertype (octets 12-13), payload (the rest). -/
structure EthernetHeader : Type where
  dst : MacAddr
  src : MacAddr
  ethertype : ℕ
  payloadBytes : List ℕ
deriving DecidableEq, Repr

/-- `EthernetPacket::new`: `None` when the buffer is shorter than the
14-byte minimum Ethernet header. -/
def EthernetPacket.new (data : List ℕ) : Option EthernetHeader :=
  if 14 ≤ data.length then
    some
      { dst := ⟨byteAt data 0, byteAt data 1, byteAt data 2,
                byteAt data 3, byteAt data 4, byteAt data 5⟩
        src := ⟨byteAt data 6, byteAt data 7, byteAt data 8,
                byteAt data 9, byteAt data 10, byteAt data 11⟩
        ethertype := byteAt data 12 * 256 + byteAt data 13
        payloadBytes := data.drop 14 }
  else none

/-- Parsed IPv4 header, as exposed by the pnet `Ipv4Packet` type: the IHL
nibble, big-endian total length, protocol byte, and the payload (the bytes
after the options, i.e. after `max 20 (IHL*4)`). -/
structure Ipv4Header : Type where
  header_length : ℕ
  total_length : ℕ
  protocol : ℕ
  payloadBytes : List ℕ
deriving DecidableEq, Repr

/-- `Ipv4Packet::new`: `None` when the buffer is shorter than the 20-byte
minimum IPv4 header.  `get_header_length` is the low nibble of byte 0,
`get_total_length` is bytes 2-3 big-endian, the protocol is byte 9, and the
payload starts after the options
(`20 + ((IHL*4) saturating- 20)` bytes in). -/
def Ipv4Packet.new (data : List ℕ) : Option Ipv4Header :=
  if 20 ≤ data.length then
    some
      { header_length := byteAt data 0 % 16
        total_length := byteAt data 2 * 256 + byteAt data 3
        protocol := byteAt data 9
        payloadBytes := data.drop (20 + (byteAt data 0 % 16 * 4 - 20)) }
  else none

/-- Parsed IPv6 header, as exposed by the pnet `Ipv6Packet` type: big-endian
payload length (bytes 4-5), next-header byte (byte 6), and the payload
(at most `payload_length` bytes starting at offset 40). -/
structure Ipv6Header : Type where
  payload_length : ℕ
  next_header : ℕ
  payloadBytes : List ℕ
deriving DecidableEq, Repr

/-- `Ipv6Packet::new`: `None` when the buffer is shorter than the 40-byte
fixed IPv6 header. -/
def Ipv6Packet.new (data : List ℕ) : Option Ipv6Header :=
  if 40 ≤ data.length then
    some
      { payload_length := byteAt data 4 * 256 + byteAt data 5
        next_header := byteAt data 6
        payloadBytes := (data.drop 40).take (byteAt data 4 * 256 + byteAt data 5) }
  else none

/-- Parsed TCP header, as exposed by the pnet `TcpPacket` type: the data-offset
nibble (high nibble of byte 12). -/
structure TcpHeader : Type where
  data_offset : ℕ
deriving DecidableEq, Repr

/-- `TcpPacket::new`: `None` when the buffer is shorter than the 20-byte
minimum TCP header. -/
def TcpPacket.new (data : List ℕ) : Option TcpHeader :=
  if 20 ≤ data.length then some { data_offset := byteAt data 12 / 16 } else none

/-- `PacketCapture::get_payload_size` (lines 59-100 of `src/capture.rs`).
IPv4: `total_length saturating- (IHL*4 [+ data_offset*4 if TCP parses])`;
IPv6: `payload_length [saturating- data_offset*4 if TCP parses]`; any
unparsed Ethernet or IP layer (or an unsupported ethertype) falls back to
the captured length `data.length`. -/
def get_payload_size (data : List ℕ) : ℕ :=
  match EthernetPacket.new data with
  | some eth =>
    if eth.ethertype = 0x0800 then
      match Ipv4Packet.new eth.payloadBytes with
      | some ip4 =>
        if ip4.protocol = 6 then
          match TcpPacket.new ip4.payloadBytes with
          | some tcp =>
            ip4.total_length - (ip4.header_length * 4 + tcp.data_offset * 4)
          | none => ip4.total_length - ip4.header_length * 4
        else ip4.total_length - ip4.header_length * 4
      | none => data.length
    else if eth.ethertype = 0x86DD then
      match Ipv6Packet.new eth.payloadBytes with
      | some ip6 =>
        if ip6.next_header = 6 then
          match TcpPacket.new ip6.payloadBytes with
          | some tcp => ip6.payload_length - tcp.data_offset * 4
          | none => ip6.payload_length
        else ip6.payload_length
      | none => data.length
    else data.length
  | none => data.length

/-- `PacketCapture::determine_direction` (lines 102-129 of
`src/capture.rs`): the decision table over (source-is-local,
dest-is-local, dest-is-broadcast, dest-is-multicast), with the Rust
`match` arms in source order (or-patterns split in place).  An unparsable
Ethernet frame is `Unknown`. -/
def determine_direction (data : List ℕ) (local_macs : List MacAddr) :
    TrafficDirection :=
  match EthernetPacket.new data with
  | some eth =>
    let src_is_local := decide (eth.src ∈ local_macs)
    let dst_is_local := decide (eth.dst ∈ local_macs)
    let is_broadcast := decide (eth.dst = MacAddr.broadcast)
    match src_is_local, dst_is_local, is_broadcast, eth.dst.is_multicast with
    | true, false, _, _ => .Outbound
    | false, true, _, _ => .Inbound
    | true, _, true, _ => .Outbound
    | true, _, _, true => .Outbound
    | false, _, true, _ => .Inbound
    | false, _, _, true => .Inbound
    | _, _, _, _ => .Unknown
  | none => .Unknown

/-- `Args` from `src/cli.rs` (only the fields `validate_args` reads). -/
structure Args : Type where
  interface : String
  filter : String
  interval : ℕ
  duration : Option ℕ
deriving DecidableEq, Repr

/-- `validate_args` from `src/main.rs` (lines 52-75), up to and excluding
the final `validate_interface` device lookup (an I/O check of interface
existence, outside the core): empty interface, empty filter, zero update
interval and zero duration are each rejected with an error message. -/
def validate_args (args : Args) : Except String Unit :=
  if args.interface = "" then .error "Interface name cannot be empty"
  else if args.filter = "" then .error "Filter expression cannot be empty"
  else if args.interval = 0 then .error "Update interval must be greater than 0"
  else
    match args.duration with
    | some d =>
      if d = 0 then .error "Duration must be greater than 0" else .ok ()
    | none => .ok ()

/-- The bytes a single packet contributes to the inbound accumulator. -/
def contribIn (packet : PacketInfo) : ℕ :=
  match packet.direction with
  | .Inbound => packet.size
  | .Outbound => 0
  | .Unknown => packet.size / 2

/-- The bytes a single packet contributes to the outbound accumulator. -/
def contribOut (packet : PacketInfo) : ℕ :=
  match packet.direction with
  | .Inbound => 0
  | .Outbound => packet.size
  | .Unknown => packet.size / 2

lemma foldl_sumStep (l : List PacketInfo) (a b : ℕ) :
    l.foldl sumStep (a, b) =
      (a + (l.map contribIn).sum, b + (l.map contribOut).sum) := by
  induction l generalizing a b with
  | nil => simp
  | cons p l ih =>
    simp only [List.foldl_cons, List.map_cons, List.sum_cons]
    cases hd : p.direction <;>
      simp [sumStep, hd, ih, contribIn, contribOut, Nat.add_assoc]

lemma windowBytes_eq (now : ℚ) (c : BandwidthCalculator) :
    windowBytes now c =
      (((c.packet_buffer.filter
          (fun packet => decide (now - c.window_duration ≤ packet.timestamp))).map
            contribIn).sum,
       ((c.packet_buffer.filter
          (fun packet => decide (now - c.window_duration ≤ packet.timestamp))).map
            contribOut).sum) := by
  unfold windowBytes
  rw [foldl_sumStep]
  simp only [Nat.zero_add]

lemma windowBytes_all_in_window (now : ℚ) (c : BandwidthCalculator)
    (hin : ∀ p ∈ c.packet_buffer, now - c.window_duration ≤ p.timestamp) :
    windowBytes now c =
      ((c.packet_buffer.map contribIn).sum,
       (c.packet_buffer.map contribOut).sum) := by
  rw [windowBytes_eq, List.filter_eq_self.mpr]
  intro p hp
  simpa using hin p hp

/-- C1: for a buffered set of records all inside the sampling window and all
of one direction D, `sample()` returns a D rate equal to the summed sizes
divided by the window duration in seconds and an opposite rate of 0; an
aggregator with no ingested records returns `{inbound: 0, outbound: 0}`. -/
theorem sample_same_direction_rate (c : BandwidthCalculator) (now : ℚ)
    (hwd : 0 < c.window_duration)
    (hin : ∀ p ∈ c.packet_buffer,
      now - c.window_duration ≤ p.timestamp ∧ p.timestamp ≤ now) :
    ((∀ p ∈ c.packet_buffer, p.direction = .Inbound) →
      (calculate_bandwidth now c).1.inbound =
        (((c.packet_buffer.map (fun p => p.size)).sum : ℕ) : ℚ) /
          c.window_duration ∧
      (calculate_bandwidth now c).1.outbound = 0) ∧
    ((∀ p ∈ c.packet_buffer, p.direction = .Outbound) →
      (calculate_bandwidth now c).1.outbound =
        (((c.packet_buffer.map (fun p => p.size)).sum : ℕ) : ℚ) /
          c.window_duration ∧
      (calculate_bandwidth now c).1.inbound = 0) ∧
    (c.packet_buffer = [] →
      (calculate_bandwidth now c).1 = { inbound := 0, outbound := 0 }) := by
  have hwin := windowBytes_all_in_window now c (fun p hp => (hin p hp).1)
  refine ⟨?_, ?_, ?_⟩
  · intro hdir
    have h1 : c.packet_buffer.map contribIn =
        c.packet_buffer.map (fun p => p.size) :=
      List.map_congr_left (fun p hp => by simp [contribIn, hdir p hp])
    have h2 : (c.packet_buffer.map contribOut).sum = 0 := by
      refine List.sum_eq_zero (fun x hx => ?_)
      obtain ⟨p, hp, rfl⟩ := List.mem_map.mp hx
      simp [contribOut, hdir p hp]
    constructor
    · simp [calculate_bandwidth, mkSample, hwin, h1]
    · simp [calculate_bandwidth, mkSample, hwin, h2]
  · intro hdir
    have h1 : c.packet_buffer.map contribOut =
        c.packet_buffer.map (fun p => p.size) :=
      List.map_congr_left (fun p hp => by simp [contribOut, hdir p hp])
    have h2 : (c.packet_buffer.map contribIn).sum = 0 := by
      refine List.sum_eq_zero (fun x hx => ?_)
      obtain ⟨p, hp, rfl⟩ := List.mem_map.mp hx
      simp [contribIn, hdir p hp]
    constructor
    · simp [calculate_bandwidth, mkSample, hwin, h1]
    · simp [calculate_bandwidth, mkSample, hwin, h2]
  · intro hempty
    simp [calculate_bandwidth, mkSample, windowBytes, hempty]

/-- Witness for C1: a single 100-byte Inbound record at timestamp 5, window
duration 2 seconds, sampled at instant 6: inbound rate 100/2, outbound 0. -/
theorem sample_same_direction_rate_witness :
    (0 : ℚ) < 2 ∧
    (calculate_bandwidth 6
        { packet_buffer := [⟨5, 100, .Inbound⟩]
          bandwidth_history := []
          max_history := 300
          window_duration := 2 }).1.inbound =
      ((([(⟨5, 100, .Inbound⟩ : PacketInfo)].map (fun p => p.size)).sum : ℕ) : ℚ) / 2 ∧
    (calculate_bandwidth 6
        { packet_buffer := [⟨5, 100, .Inbound⟩]
          bandwidth_history := []
          max_history := 300
          window_duration := 2 }).1.outbound = 0 := by
  have h := (sample_same_direction_rate
      { packet_buffer := [⟨5, 100, .Inbound⟩]
        bandwidth_history := []
        max_history := 300
        window_duration := 2 } 6
      (by norm_num)
      (by
        intro p hp
        simp only [List.mem_singleton] at hp
        subst hp
        norm_num)).1
    (by
      intro p hp
      simp only [List.mem_singleton] at hp
      subst hp
      rfl)
  exact ⟨by norm_num, h.1, h.2⟩

/-- C2: an in-window Unknown record contributes exactly `size / 2` (integer
division) bytes to the inbound sum and `size / 2` bytes to the outbound sum
of `sample()`; the odd leftover byte is dropped on both sides. -/
theorem sample_unknown_split (c : BandwidthCalculator) (now : ℚ)
    (l1 l2 : List PacketInfo) (u : PacketInfo)
    (hbuf : c.packet_buffer = l1 ++ u :: l2)
    (hdir : u.direction = .Unknown)
    (hwin : now - c.window_duration ≤ u.timestamp) :
    (windowBytes now c).1 =
      (windowBytes now { c with packet_buffer := l1 ++ l2 }).1 + u.size / 2 ∧
    (windowBytes now c).2 =
      (windowBytes now { c with packet_buffer := l1 ++ l2 }).2 + u.size / 2 := by
  have hu : decide (now - c.window_duration ≤ u.timestamp) = true :=
    decide_eq_true hwin
  rw [windowBytes_eq, windowBytes_eq]
  simp only [hbuf, List.filter_append, List.filter_cons, hu, if_true,
    List.map_append, List.map_cons, List.sum_append, List.sum_cons,
    contribIn, contribOut, hdir]
  omega

/-- Witness for C2: one Unknown record of size 7 inside a 2-second window
contributes 3 bytes to each side (the leftover byte is dropped). -/
theorem sample_unknown_split_witness :
    (windowBytes 6
        { packet_buffer := [⟨5, 7, .Unknown⟩]
          bandwidth_history := []
          max_history := 300
          window_duration := 2 }).1 =
      (windowBytes 6
        { packet_buffer := []
          bandwidth_history := []
          max_history := 300
          window_duration := 2 }).1 + 7 / 2 ∧
    (windowBytes 6
        { packet_buffer := [⟨5, 7, .Unknown⟩]
          bandwidth_history := []
          max_history := 300
          window_duration := 2 }).2 =
      (windowBytes 6
        { packet_buffer := []
          bandwidth_history := []
          max_history := 300
          window_duration := 2 }).2 + 7 / 2 :=
  sample_unknown_split
    { packet_buffer := [⟨5, 7, .Unknown⟩]
      bandwidth_history := []
      max_history := 300
      window_duration := 2 } 6 [] [] ⟨5, 7, .Unknown⟩ rfl rfl (by norm_num)

/-- C10: `sample()` (`calculate_bandwidth`) leaves the packet window buffer,
the history bound and the window duration unchanged, and `ingest`
(`add_packet`) leaves the bandwidth history, the history bound and the
window duration unchanged. -/
theorem aggregator_frame_conditions (c : BandwidthCalculator) (now : ℚ)
    (packet : PacketInfo) :
    (calculate_bandwidth now c).2.packet_buffer = c.packet_buffer ∧
    (calculate_bandwidth now c).2.max_history = c.max_history ∧
    (calculate_bandwidth now c).2.window_duration = c.window_duration ∧
    (add_packet now packet c).bandwidth_history = c.bandwidth_history ∧
    (add_packet now packet c).max_history = c.max_history ∧
    (add_packet now packet c).window_duration = c.window_duration := by
  refine ⟨rfl, rfl, rfl, ?_, ?_, ?_⟩ <;> rfl

/-- C3: for a parseable Ethernet frame, the MAC classifier returns Outbound
when the source is local and the destination is not, Inbound when the
destination is local and the source is not, Outbound when the source is
local and the destination is the broadcast address, and Unknown when
neither MAC is local and the destination is neither broadcast nor
multicast. -/
theorem mac_classification (data : List ℕ) (local_macs : List MacAddr)
    (eth : EthernetHeader) (heth : EthernetPacket.new data = some eth) :
    (eth.src ∈ local_macs → eth.dst ∉ local_macs →
      determine_direction data local_macs = .Outbound) ∧
    (eth.dst ∈ local_macs → eth.src ∉ local_macs →
      determine_direction data local_macs = .Inbound) ∧
    (eth.src ∈ local_macs → eth.dst = MacAddr.broadcast →
      determine_direction data local_macs = .Outbound) ∧
    (eth.src ∉ local_macs → eth.dst ∉ local_macs →
      eth.dst ≠ MacAddr.broadcast → eth.dst.is_multicast = false →
      determine_direction data local_macs = .Unknown) := by
  unfold determine_direction
  rw [heth]
  cases hsrc : decide (eth.src ∈ local_macs) <;>
    cases hdst : decide (eth.dst ∈ local_macs) <;>
      cases hbc : decide (eth.dst = MacAddr.broadcast) <;>
        cases hmc : eth.dst.is_multicast <;>
          simp_all

/-- Witness for C3: source `01:02:03:04:05:06` is the only local MAC and the
destination `aa:aa:aa:aa:aa:aa` is not local, so the classifier says
Outbound. -/
theorem mac_classification_witness :
    EthernetPacket.new
        [170, 170, 170, 170, 170, 170, 1, 2, 3, 4, 5, 6, 8, 0] =
      some ⟨⟨170, 170, 170, 170, 170, 170⟩, ⟨1, 2, 3, 4, 5, 6⟩, 2048, []⟩ ∧
    determine_direction
        [170, 170, 170, 170, 170, 170, 1, 2, 3, 4, 5, 6, 8, 0]
        [⟨1, 2, 3, 4, 5, 6⟩] = .Outbound :=
  ⟨by decide,
   (mac_classification
      [170, 170, 170, 170, 170, 170, 1, 2, 3, 4, 5, 6, 8, 0]
      [⟨1, 2, 3, 4, 5, 6⟩]
      ⟨⟨170, 170, 170, 170, 170, 170⟩, ⟨1, 2, 3, 4, 5, 6⟩, 2048, []⟩
      (by decide)).1 (by decide) (by decide)⟩

/-- Counterexample to C4: with local set `{01:02:03:04:05:06, ff:ff:ff:ff:ff:ff}`,
a frame from the first to the broadcast address has both MACs local, yet the
classifier returns Outbound, not Unknown: the broadcast/multicast arms fire
before the both-local fallthrough. -/
theorem both_local_broadcast_is_outbound :
    (⟨1, 2, 3, 4, 5, 6⟩ : MacAddr) ∈
      ([⟨1, 2, 3, 4, 5, 6⟩, MacAddr.broadcast] : List MacAddr) ∧
    MacAddr.broadcast ∈
      ([⟨1, 2, 3, 4, 5, 6⟩, MacAddr.broadcast] : List MacAddr) ∧
    EthernetPacket.new
        [255, 255, 255, 255, 255, 255, 1, 2, 3, 4, 5, 6, 8, 0] =
      some ⟨MacAddr.broadcast, ⟨1, 2, 3, 4, 5, 6⟩, 2048, []⟩ ∧
    determine_direction
        [255, 255, 255, 255, 255, 255, 1, 2, 3, 4, 5, 6, 8, 0]
        [⟨1, 2, 3, 4, 5, 6⟩, MacAddr.broadcast] = .Outbound ∧
    TrafficDirection.Outbound ≠ TrafficDirection.Unknown := by decide

/-- C4 as amended: a parseable frame with both MACs local classifies as
Unknown only when the destination is neither broadcast nor multicast; when
the destination is broadcast or multicast (and the source is local), the
broadcast/multicast arms take precedence and the result is Outbound. -/
theorem both_local_classification (data : List ℕ) (local_macs : List MacAddr)
    (eth : EthernetHeader) (heth : EthernetPacket.new data = some eth)
    (hsrc : eth.src ∈ local_macs) (hdst : eth.dst ∈ local_macs) :
    (eth.dst ≠ MacAddr.broadcast → eth.dst.is_multicast = false →
      determine_direction data local_macs = .Unknown) ∧
    (eth.dst = MacAddr.broadcast ∨ eth.dst.is_multicast = true →
      determine_direction data local_macs = .Outbound) := by
  unfold determine_direction
  rw [heth]
  cases hbc : decide (eth.dst = MacAddr.broadcast) <;>
    cases hmc : eth.dst.is_multicast <;>
      simp_all

/-- Witness for C4 (amended): both `01:02:03:04:05:06` and `02:00:00:00:00:09`
are local; the destination is neither broadcast nor multicast, so the frame
between them classifies as Unknown. -/
theorem both_local_classification_witness :
    EthernetPacket.new
        [2, 0, 0, 0, 0, 9, 1, 2, 3, 4, 5, 6, 8, 0] =
      some ⟨⟨2, 0, 0, 0, 0, 9⟩, ⟨1, 2, 3, 4, 5, 6⟩, 2048, []⟩ ∧
    determine_direction
        [2, 0, 0, 0, 0, 9, 1, 2, 3, 4, 5, 6, 8, 0]
        [⟨1, 2, 3, 4, 5, 6⟩, ⟨2, 0, 0, 0, 0, 9⟩] = .Unknown :=
  ⟨by decide,
   (both_local_classification
      [2, 0, 0, 0, 0, 9, 1, 2, 3, 4, 5, 6, 8, 0]
      [⟨1, 2, 3, 4, 5, 6⟩, ⟨2, 0, 0, 0, 0, 9⟩]
      ⟨⟨2, 0, 0, 0, 0, 9⟩, ⟨1, 2, 3, 4, 5, 6⟩, 2048, []⟩
      (by decide) (by decide) (by decide)).1 (by decide) (by decide)⟩

/-- A 54-byte Ethernet/IPv4/TCP frame: 14-byte Ethernet header (ethertype
0x0800), 20-byte IPv4 header (IHL 5, total_length 100, protocol TCP), and a
20-byte TCP header (data offset 5). -/
def frameIpv4Tcp : List ℕ :=
  [170, 170, 170, 170, 170, 170, 1, 2, 3, 4, 5, 6, 8, 0] ++
  [69, 0, 0, 100, 0, 0, 0, 0, 0, 6, 0, 0, 0, 0, 0, 0, 0, 0, 0, 0] ++
  [0, 0, 0, 0, 0, 0, 0, 0, 0, 0, 0, 0, 80, 0, 0, 0, 0, 0, 0, 0]

/-- The same frame truncated after the IPv4 header (34 bytes): the IPv4
layer still announces protocol TCP and total_length 100, but there are no
TCP bytes to parse. -/
def frameIpv4Truncated : List ℕ :=
  [170, 170, 170, 170, 170, 170, 1, 2, 3, 4, 5, 6, 8, 0] ++
  [69, 0, 0, 100, 0, 0, 0, 0, 0, 6, 0, 0, 0, 0, 0, 0, 0, 0, 0, 0]

/-- C6: for a frame that parses as Ethernet/IPv4/TCP, the payload length is
`total_length - IHL*4 - data_offset*4` with saturating (truncated, hence
never-underflowing) subtraction, so whenever the header lengths sum to at
least the total length the result is exactly 0. -/
theorem ipv4_tcp_payload_length (data : List ℕ) (eth : EthernetHeader)
    (ip4 : Ipv4Header) (tcp : TcpHeader)
    (heth : EthernetPacket.new data = some eth)
    (htype : eth.ethertype = 0x0800)
    (hip : Ipv4Packet.new eth.payloadBytes = some ip4)
    (hproto : ip4.protocol = 6)
    (htcp : TcpPacket.new ip4.payloadBytes = some tcp) :
    get_payload_size data =
      ip4.total_length - (ip4.header_length * 4 + tcp.data_offset * 4) ∧
    (ip4.header_length * 4 + tcp.data_offset * 4 ≥ ip4.total_length →
      get_payload_size data = 0) := by
  have h1 : get_payload_size data =
      ip4.total_length - (ip4.header_length * 4 + tcp.data_offset * 4) := by
    unfold get_payload_size
    rw [heth]
    simp [htype, hip, hproto, htcp]
  exact ⟨h1, fun hge => by omega⟩

/-- Witness for C6: the concrete Ethernet/IPv4/TCP frame with
total_length 100, IHL 5 (20 bytes) and data offset 5 (20 bytes) yields a
payload length of 60. -/
theorem ipv4_tcp_payload_length_witness :
    get_payload_size frameIpv4Tcp = 60 := by
  have h := (ipv4_tcp_payload_length frameIpv4Tcp
      ⟨⟨170, 170, 170, 170, 170, 170⟩, ⟨1, 2, 3, 4, 5, 6⟩, 2048,
        [69, 0, 0, 100, 0, 0, 0, 0, 0, 6, 0, 0, 0, 0, 0, 0, 0, 0, 0, 0] ++
        [0, 0, 0, 0, 0, 0, 0, 0, 0, 0, 0, 0, 80, 0, 0, 0, 0, 0, 0, 0]⟩
      ⟨5, 100, 6,
        [0, 0, 0, 0, 0, 0, 0, 0, 0, 0, 0, 0, 80, 0, 0, 0, 0, 0, 0, 0]⟩
      ⟨5⟩ (by decide) (by decide) (by decide) (by decide) (by decide)).1
  simpa using h

/-- Counterexample to C7: in the truncated Ethernet/IPv4 frame the TCP layer
cannot be parsed, yet `get_payload_size` returns
`total_length - IHL*4 = 100 - 20 = 80`, not the captured length 34. -/
theorem tcp_unparsed_not_captured_length :
    Ipv4Packet.new (frameIpv4Truncated.drop 14) = some ⟨5, 100, 6, []⟩ ∧
    TcpPacket.new ([] : List ℕ) = none ∧
    get_payload_size frameIpv4Truncated = 80 ∧
    frameIpv4Truncated.length = 34 ∧
    (80 : ℕ) ≠ 34 := by decide

/-- C7 as amended: the parser and classifier are total functions of the
byte buffer (the embedding returns plain values, never an error).  When the
Ethernet layer cannot be parsed, the payload length is the captured length
and the direction is Unknown.  When the IP layer cannot be parsed under a
parseable Ethernet header, the payload length is the captured length (the
direction is still computed from the Ethernet MACs).  When only the TCP
layer cannot be parsed, the payload length falls back to the IP-derived
value `total_length - IHL*4`, not to the captured length. -/
theorem parse_fallback (data : List ℕ) :
    (EthernetPacket.new data = none →
      get_payload_size data = data.length ∧
      ∀ local_macs, determine_direction data local_macs = .Unknown) ∧
    (∀ eth : EthernetHeader, EthernetPacket.new data = some eth →
      eth.ethertype = 0x0800 →
      Ipv4Packet.new eth.payloadBytes = none →
      get_payload_size data = data.length) ∧
    (∀ (eth : EthernetHeader) (ip4 : Ipv4Header),
      EthernetPacket.new data = some eth →
      eth.ethertype = 0x0800 →
      Ipv4Packet.new eth.payloadBytes = some ip4 →
      ip4.protocol = 6 →
      TcpPacket.new ip4.payloadBytes = none →
      get_payload_size data = ip4.total_length - ip4.header_length * 4) := by
  refine ⟨fun hnone => ⟨?_, fun local_macs => ?_⟩,
          fun eth heth htype hip => ?_,
          fun eth ip4 heth htype hip hproto htcp => ?_⟩
  · unfold get_payload_size
    rw [hnone]
  · unfold determine_direction
    rw [hnone]
  · unfold get_payload_size
    rw [heth]
    simp [htype, hip]
  · unfold get_payload_size
    rw [heth]
    simp [htype, hip, hproto, htcp]

/-- Witness for C7 (amended): the empty buffer has no Ethernet layer, so the
payload length is the captured length 0 and the direction is Unknown; on the
truncated IPv4 frame (TCP layer unparseable) the payload length is
`100 - 5*4 = 80`. -/
theorem parse_fallback_witness :
    get_payload_size [] = List.length ([] : List ℕ) ∧
    determine_direction [] [] = .Unknown ∧
    get_payload_size frameIpv4Truncated = 80 := by
  have h0 := (parse_fallback []).1 (by decide)
  have h3 := (parse_fallback frameIpv4Truncated).2.2
    ⟨⟨170, 170, 170, 170, 170, 170⟩, ⟨1, 2, 3, 4, 5, 6⟩, 2048,
      [69, 0, 0, 100, 0, 0, 0, 0, 0, 6, 0, 0, 0, 0, 0, 0, 0, 0, 0, 0]⟩
    ⟨5, 100, 6, []⟩
    (by decide) (by decide) (by decide) (by decide) (by decide)
  exact ⟨h0.1, h0.2 [], by simpa using h3⟩

lemma calcBW_hist (now : ℚ) (c : BandwidthCalculator) :
    (calculate_bandwidth now c).2.bandwidth_history =
      if c.max_history < (c.bandwidth_history ++ [mkSample now c]).length
      then (c.bandwidth_history ++ [mkSample now c]).tail
      else c.bandwidth_history ++ [mkSample now c] := rfl

lemma mkSample_congr (t : ℚ) (c c' : BandwidthCalculator)
    (hb : c'.packet_buffer = c.packet_buffer)
    (hw : c'.window_duration = c.window_duration) :
    mkSample t c' = mkSample t c := by
  simp [mkSample, windowBytes, hb, hw]

lemma runSamples_history (ts : List ℚ) :
    ∀ c : BandwidthCalculator, c.bandwidth_history.length ≤ c.max_history →
      (runSamples c ts).bandwidth_history =
        (c.bandwidth_history ++ ts.map (fun t => mkSample t c)).drop
          (c.bandwidth_history.length + ts.length - c.max_history) := by
  induction ts with
  | nil =>
    intro c hc
    simp [runSamples, Nat.sub_eq_zero_of_le hc]
  | cons t ts ih =>
    intro c hc
    have hbuf : (calculate_bandwidth t c).2.packet_buffer = c.packet_buffer := rfl
    have hwd : (calculate_bandwidth t c).2.window_duration =
      c.window_duration := rfl
    have hmax : (calculate_bandwidth t c).2.max_history = c.max_history := rfl
    have hhist : (calculate_bandwidth t c).2.bandwidth_history =
        (c.bandwidth_history ++ [mkSample t c]).drop
          (c.bandwidth_history.length + 1 - c.max_history) := by
      rw [calcBW_hist]
      by_cases h :
          c.max_history < (c.bandwidth_history ++ [mkSample t c]).length
      · rw [if_pos h]
        simp only [List.length_append, List.length_singleton] at h
        have h1 : c.bandwidth_history.length + 1 - c.max_history = 1 := by
          omega
        rw [h1, List.drop_one]
      · rw [if_neg h]
        simp only [List.length_append, List.length_singleton, not_lt] at h
        have h0 : c.bandwidth_history.length + 1 - c.max_history = 0 := by
          omega
        rw [h0, List.drop_zero]
    have hlen1 : (calculate_bandwidth t c).2.bandwidth_history.length =
        min (c.bandwidth_history.length + 1) c.max_history := by
      rw [hhist]
      simp only [List.length_drop, List.length_append, List.length_singleton]
      omega
    have hmap : ts.map (fun t' => mkSample t' (calculate_bandwidth t c).2) =
        ts.map (fun t' => mkSample t' c) :=
      List.map_congr_left
        (fun t' _ => mkSample_congr t' c (calculate_bandwidth t c).2 hbuf hwd)
    have hrec := ih (calculate_bandwidth t c).2 (by rw [hlen1, hmax]; omega)
    rw [hmap, hlen1, hmax, hhist] at hrec
    show (runSamples (calculate_bandwidth t c).2 ts).bandwidth_history = _
    rw [hrec,
      ← List.drop_append_of_le_length (by
        simp only [List.length_append, List.length_singleton]
        omega),
      List.drop_drop]
    have hl : (c.bandwidth_history ++ [mkSample t c]) ++
        ts.map (fun t' => mkSample t' c) =
        c.bandwidth_history ++ (t :: ts).map (fun t' => mkSample t' c) := by
      simp
    rw [hl]
    congr 1
    simp only [List.length_cons]
    omega

/-- C5: starting from a freshly constructed aggregator with history bound H,
after sampling at the tick instants `ts` the history length is
`min ts.length H` and the history holds exactly the last
`min ts.length H` produced samples in order (newest last, oldest evicted
first), so the bound is never exceeded after any insertion. -/
theorem history_bound (wd : ℚ) (H : ℕ) (ts : List ℚ) :
    (runSamples (BandwidthCalculator.new wd H) ts).bandwidth_history.length =
      min ts.length H ∧
    (runSamples (BandwidthCalculator.new wd H) ts).bandwidth_history =
      (ts.map (fun t => mkSample t (BandwidthCalculator.new wd H))).drop
        (ts.length - H) := by
  have h := runSamples_history ts (BandwidthCalculator.new wd H)
    (by simp [BandwidthCalculator.new])
  simp only [BandwidthCalculator.new, List.nil_append, List.length_nil,
    Nat.zero_add] at h
  simp only [BandwidthCalculator.new]
  refine ⟨?_, h⟩
  rw [h]
  simp only [List.length_drop, List.length_map]
  omega

/-- Counterexample to C8: `BandwidthCalculator::new` accepts
`window_duration = 0` without any error (it is a total constructor), and
`calculate_bandwidth` then runs and records a sample with that zero
duration, so sampling does run with a zero window duration. -/
theorem zero_window_construction_succeeds :
    (BandwidthCalculator.new 0 300).window_duration = 0 ∧
    (calculate_bandwidth 5
        (BandwidthCalculator.new 0 300)).2.bandwidth_history.length = 1 := by
  constructor
  · rfl
  · rfl

/-- C8 as amended: a zero `tick_interval` (the `--interval` argument) is
rejected by `validate_args` before the session starts, but a zero
`window_duration` is not validated anywhere: `BandwidthCalculator::new`
stores whatever window duration it is given (the monitor merely hard-codes
a 1-second window). -/
theorem zero_interval_rejected (args : Args) (wd : ℚ) (mh : ℕ)
    (h : args.interval = 0) :
    validate_args args ≠ .ok () ∧
    BandwidthCalculator.new wd mh =
      { packet_buffer := []
        bandwidth_history := []
        max_history := mh
        window_duration := wd } := by
  refine ⟨?_, rfl⟩
  unfold validate_args
  rw [h]
  split_ifs <;> simp_all

/-- Witness for C8 (amended): the concrete argument set
`{interface := "eth0", filter := "tcp", interval := 0}` is rejected, and a
constructed calculator stores window duration 1 and bound 300. -/
theorem zero_interval_rejected_witness :
    validate_args ⟨"eth0", "tcp", 0, none⟩ ≠ .ok () ∧
    BandwidthCalculator.new 1 300 =
      { packet_buffer := []
        bandwidth_history := []
        max_history := 300
        window_duration := 1 } :=
  zero_interval_rejected ⟨"eth0", "tcp", 0, none⟩ 1 300 rfl

/-- Counterexample to C9: a history entry with inbound rate 2048 bytes/sec
yields the chart point `(0, 2)`, not `(0, 2048)`: `get_chart_data` divides
each rate by 1024 (a KiB unit conversion performed inside the core). -/
theorem chart_data_converts_units :
    (get_chart_data
        { packet_buffer := []
          bandwidth_history := [⟨0, 2048, 1024⟩]
          max_history := 300
          window_duration := 1 }).1 = [((0 : ℚ), (2 : ℚ))] ∧
    ((2 : ℚ)) ≠ 2048 := by
  constructor
  · simp only [get_chart_data]
    norm_num [List.enum, List.enumFrom]
  · norm_num

/-- C9 as amended: the chart history is two aligned, oldest-first sequences
of `(tick_index, rate / 1024)` points, one per direction, each the same
length as the stored history; the i-th point of each sequence carries index
i and the rate of the i-th history entry divided by 1024 (the KiB conversion is
applied by the core). -/
theorem chart_data_indexed (c : BandwidthCalculator) (i : ℕ)
    (hi : i < c.bandwidth_history.length) :
    (get_chart_data c).1.length = c.bandwidth_history.length ∧
    (get_chart_data c).2.length = c.bandwidth_history.length ∧
    (get_chart_data c).1[i]? =
      some ((i : ℚ),
        (c.bandwidth_history.get ⟨i, hi⟩).inbound_bps / 1024) ∧
    (get_chart_data c).2[i]? =
      some ((i : ℚ),
        (c.bandwidth_history.get ⟨i, hi⟩).outbound_bps / 1024) := by
  unfold get_chart_data
  refine ⟨by simp, by simp, ?_, ?_⟩ <;>
    simp [List.getElem?_map, List.getElem?_enum,
      List.getElem?_eq_getElem hi, List.get_eq_getElem]

/-- Witness for C9 (amended): a one-entry history with rates 1024 and 2048
charts as inbound point `(0, 1)` and outbound point `(0, 2)`. -/
theorem chart_data_indexed_witness :
    (0 : ℕ) <
      ({ packet_buffer := []
         bandwidth_history := [⟨0, 1024, 2048⟩]
         max_history := 300
         window_duration := 1 } : BandwidthCalculator).bandwidth_history.length ∧
    (get_chart_data
        { packet_buffer := []
          bandwidth_history := [⟨0, 1024, 2048⟩]
          max_history := 300
          window_duration := 1 }).1[0]? = some ((0 : ℚ), 1024 / 1024) ∧
    (get_chart_data
        { packet_buffer := []
          bandwidth_history := [⟨0, 1024, 2048⟩]
          max_history := 300
          window_duration := 1 }).2[0]? = some ((0 : ℚ), 2048 / 1024) := by
  have h := chart_data_indexed
    { packet_buffer := []
      bandwidth_history := [⟨0, 1024, 2048⟩]
      max_history := 300
      window_duration := 1 } 0 (by norm_num)
  exact ⟨by norm_num, h.2.2.1, h.2.2.2⟩
